import Mathlib

/-!
Verification of the `csp-parser` repository (northwood-labs/csp-parser):
a parser and structural validator for Content-Security-Policy and
Reporting-Endpoints HTTP header values.

The Go source is shallowly embedded: Go regexps (all anchored `^...$`
full-string matches via `MatchString`) become a small regular-expression
engine with Brzozowski-derivative matching; Go slices become `List`;
Go maps become association lists with overwrite-on-insert; the aggregated
`*multierror.Error` becomes a `List String` of formatted messages; Go
run-time panics (out-of-range slice indexing) are modelled by `Option`,
with `none` denoting a panic.
-/

namespace CSP

/-! ## Character helpers (ASCII, mirroring the byte/rune operations in Go) -/

/-- ASCII letters, the `a-zA-Z` ranges of the Go regexps. -/
def isAlphaB (c : Char) : Bool :=
  ('a' ≤ c && c ≤ 'z') || ('A' ≤ c && c ≤ 'Z')

/-- ASCII digits, the `0-9` range of the Go regexps. -/
def isDigitB (c : Char) : Bool :=
  '0' ≤ c && c ≤ '9'

/-- ASCII lower-casing of one character, as `strings.ToLower` /
`strings.EqualFold` behave on the ASCII directive names and keywords this
parser compares against. -/
def asciiLower (c : Char) : Char :=
  if 'A' ≤ c && c ≤ 'Z' then Char.ofNat (c.toNat + 32) else c

/-- ASCII lower-casing of a string (`strings.ToLower` on ASCII input). -/
def lowerStr (s : String) : String :=
  ⟨s.toList.map asciiLower⟩

/-- Case-insensitive string comparison: Go's `strings.EqualFold` restricted to
ASCII folding, which coincides with Go on the ASCII keyword comparisons the
parser performs. -/
def equalFold (a b : String) : Bool :=
  a.toList.map asciiLower == b.toList.map asciiLower

/-- Whitespace class of Go's RE2 `\s`: `[\t\n\f\r ]`. -/
def isRe2Space (c : Char) : Bool :=
  c = ' ' || c = '\t' || c = '\n' || c = Char.ofNat 12 || c = Char.ofNat 13

/-- Whitespace trimmed by Go's `strings.TrimSpace` (ASCII part; the Unicode
space characters it additionally trims play no role in the claims). -/
def isGoSpace (c : Char) : Bool :=
  isRe2Space c || c = Char.ofNat 11

/-! ## Go string primitives -/

/-- Splitting a character list at every occurrence of `sep`, keeping empty
segments: the behaviour of Go's `strings.Split` with a one-character
separator (always returns at least one segment). -/
def splitCharAux (sep : Char) : List Char → List (List Char)
  | [] => [[]]
  | c :: cs =>
    match splitCharAux sep cs with
    | [] => if c = sep then [[], []] else [[c]]
    | g :: gs => if c = sep then [] :: g :: gs else (c :: g) :: gs

/-- Go's `strings.Split(s, sep)` for a one-character separator. -/
def splitChar (sep : Char) (s : String) : List String :=
  (splitCharAux sep s.toList).map (fun g => ⟨g⟩)

/-- Go's `strings.TrimSpace`. -/
def trimSpace (s : String) : String :=
  ⟨(s.toList.dropWhile isGoSpace).reverse.dropWhile isGoSpace |>.reverse⟩

/-- Collapsing runs of whitespace: helper for
`regexp.MustCompile(curly \s+ curly).ReplaceAllString(s, " ")`; the flag
records whether the previous character was whitespace. -/
def collapseWsAux : Bool → List Char → List Char
  | _, [] => []
  | inWs, c :: cs =>
    if isRe2Space c then
      if inWs then collapseWsAux true cs else ' ' :: collapseWsAux true cs
    else c :: collapseWsAux false cs

/-- The whitespace collapse `reWhitespace.ReplaceAllString(directive, " ")`
performed by `Parse`: every maximal run of `\s+` becomes a single space. -/
def collapseWs (s : String) : String :=
  ⟨collapseWsAux false s.toList⟩

/-- Go's `strings.Contains(s, c)` for a one-character substring. -/
def containsChar (s : String) (c : Char) : Bool :=
  s.toList.contains c

/-! ## Regular-expression engine

Go's `regexp.MatchString` on the anchored patterns used by this repository
decides whole-string membership in the pattern's language.  We realise that
with a standard derivative-based matcher. -/

/-- Regular expressions over characters; `cls` is a character class. -/
inductive Regex where
  | emp : Regex
  | eps : Regex
  | cls : (Char → Bool) → Regex
  | cat : Regex → Regex → Regex
  | alt : Regex → Regex → Regex
  | star : Regex → Regex

/-- Does the regex accept the empty string? -/
def Regex.nullable : Regex → Bool
  | .emp => false
  | .eps => true
  | .cls _ => false
  | .cat r s => r.nullable && s.nullable
  | .alt r s => r.nullable || s.nullable
  | .star _ => true

/-- Concatenation, simplifying the absorbing/neutral cases to keep
derivatives small. -/
def scat : Regex → Regex → Regex
  | .emp, _ => .emp
  | .eps, s => s
  | r, .eps => r
  | r, s => .cat r s

/-- Alternation, simplifying the neutral cases. -/
def salt : Regex → Regex → Regex
  | .emp, s => s
  | r, .emp => r
  | r, s => .alt r s

/-- Brzozowski derivative of a regex with respect to one character. -/
def Regex.deriv (c : Char) : Regex → Regex
  | .emp => .emp
  | .eps => .emp
  | .cls p => if p c then .eps else .emp
  | .cat r s =>
    if r.nullable then salt (scat (r.deriv c) s) (s.deriv c)
    else scat (r.deriv c) s
  | .alt r s => salt (r.deriv c) (s.deriv c)
  | .star r => scat (r.deriv c) (.star r)

/-- Whole-word matching by iterated derivatives. -/
def rmatchL (r : Regex) : List Char → Bool
  | [] => r.nullable
  | c :: cs => rmatchL (r.deriv c) cs

/-- Whole-string matching: Go's `MatchString` for an `^...$`-anchored
pattern. -/
def rmatch (r : Regex) (s : String) : Bool :=
  rmatchL r s.toList

/-- A single literal character. -/
def rchar (c : Char) : Regex :=
  .cls (fun x => x = c)

/-- A literal string. -/
def rstr (s : String) : Regex :=
  s.toList.foldr (fun c r => scat (rchar c) r) .eps

/-- A literal string matched case-insensitively, for the `(?i)` patterns. -/
def ristr (s : String) : Regex :=
  s.toList.foldr (fun c r => scat (.cls (fun x => asciiLower x = asciiLower c)) r) .eps

/-- Zero-or-one occurrences, regex `?`. -/
def ropt (r : Regex) : Regex :=
  salt r .eps

/-- One-or-more occurrences, regex `+`. -/
def rplus (r : Regex) : Regex :=
  scat r (.star r)

/-! ## The classifier regexes

Each definition transcribes the corresponding `regexp.MustCompile` pattern.
Note that inside an RE2 character class the fragment `+-.` is a *range* from
`'+'` (0x2B) to `'.'` (0x2E) and therefore also contains `','` and `'-'`;
the classes below reproduce that faithfully. -/

/-- The class `[a-zA-Z0-9+-.]` (the `+-.` range: `+`, `,`, `-`, `.`). -/
def schemeChar (c : Char) : Bool :=
  isAlphaB c || isDigitB c || "+,-.".toList.contains c

/-- The class `[a-zA-Z0-9-]` of host labels. -/
def hostChar (c : Char) : Bool :=
  isAlphaB c || isDigitB c || c = '-'

/-- The class `[a-zA-Z0-9+/]` of base64 characters. -/
def b64Char (c : Char) : Bool :=
  isAlphaB c || isDigitB c || c = '+' || c = '/'

/-- The class `[a-zA-Z0-9_./+-]` of media subtypes (`-` literal, last). -/
def mediaChar (c : Char) : Bool :=
  isAlphaB c || isDigitB c || "_./+-".toList.contains c

/-- The scheme fragment `[a-zA-Z][a-zA-Z0-9+-.]*` shared by the
scheme-source and host-source patterns. -/
def schemePart : Regex :=
  scat (.cls isAlphaB) (.star (.cls schemeChar))

/-- Pattern `^[a-zA-Z][a-zA-Z0-9+-.]*:$` of `isSchemeSource`. -/
def reSchemePart : Regex :=
  scat schemePart (rchar ':')

/-- Pattern of `isHostSource`:
`^([a-zA-Z][a-zA-Z0-9+-.]*://)?(\*|(\*)?\.?([a-zA-Z0-9-]+))+(:(\*|[0-9]+))?(/[^/]+)*$`. -/
def reHostSource : Regex :=
  scat (ropt (scat schemePart (rstr "://")))
    (scat
      (rplus (salt (rchar '*')
        (scat (ropt (rchar '*')) (scat (ropt (rchar '.')) (rplus (.cls hostChar))))))
      (scat
        (ropt (scat (rchar ':') (salt (rchar '*') (rplus (.cls isDigitB)))))
        (.star (scat (rchar '/') (rplus (.cls (fun c => !(c = '/'))))))))

/-- One to three digits, the `[0-9]{1,3}` fragment. -/
def digits13 : Regex :=
  scat (.cls isDigitB) (ropt (scat (.cls isDigitB) (ropt (.cls isDigitB))))

/-- Pattern `^(([0-9]{1,3}[.]){3}[0-9]{1,3})$` of the dotted-quad guard
`reIPv4Dumb` inside `isHostSource`. -/
def reIPv4Dumb : Regex :=
  scat (scat digits13 (rchar '.'))
    (scat (scat digits13 (rchar '.'))
      (scat (scat digits13 (rchar '.')) digits13))

/-- Zero, one or two `=` padding characters, the `={0,2}` fragment. -/
def rpad : Regex :=
  ropt (scat (rchar '=') (ropt (rchar '=')))

/-- Pattern `^(?i)'nonce-[a-zA-Z0-9+/]*={0,2}'$` of `isNonceSource`. -/
def reNonceSource : Regex :=
  scat (rchar (Char.ofNat 39))
    (scat (ristr "nonce-")
      (scat (.star (.cls b64Char)) (scat rpad (rchar (Char.ofNat 39)))))

/-- Pattern `^(?i)'sha(256|384|512)-[a-zA-Z0-9+/]*={0,2}'$` of
`isHashSource`. -/
def reHashSource : Regex :=
  scat (rchar (Char.ofNat 39))
    (scat (ristr "sha")
      (scat (salt (rstr "256") (salt (rstr "384") (rstr "512")))
        (scat (rchar '-')
          (scat (.star (.cls b64Char)) (scat rpad (rchar (Char.ofNat 39)))))))

/-- Pattern
`^(?i)(application|audio|font|example|image|message|model|multipart|text|video)/[a-zA-Z0-9_./+-]+$`
of `isMediaType`. -/
def reMediaType : Regex :=
  scat
    (salt (ristr "application") (salt (ristr "audio") (salt (ristr "font")
      (salt (ristr "example") (salt (ristr "image") (salt (ristr "message")
        (salt (ristr "model") (salt (ristr "multipart")
          (salt (ristr "text") (ristr "video"))))))))))
    (scat (rchar '/') (rplus (.cls mediaChar)))

/-! ## Token classifiers (`reporting_endpoints_test.go`, parser chunk) -/

/-- Go `isSchemeSource`: a bare scheme token ending in a colon. -/
def isSchemeSource (s : String) : Bool :=
  rmatch reSchemePart s

/-- Go `isHostSource`: the host-source grammar, with the literal
`127.0.0.1` special-cased to pass and every other dotted-quad-shaped
string rejected. -/
def isHostSource (s : String) : Bool :=
  s == "127.0.0.1" || (rmatch reHostSource s && !rmatch reIPv4Dumb s)

/-- Go `isKeywordSource`: case-insensitive match against the fixed
keyword-source set. -/
def isKeywordSource (s : String) : Bool :=
  equalFold s "'self'" ||
  equalFold s "'report-sample'" ||
  equalFold s "'strict-dynamic'" ||
  equalFold s "'unsafe-eval'" ||
  equalFold s "'unsafe-hashes'" ||
  equalFold s "'unsafe-inline'" ||
  equalFold s "'unsafe-allow-redirects'" ||
  equalFold s "'wasm-unsafe-eval'"

/-- Go `isSandboxSource`: case-insensitive match against the sandbox
keyword set. -/
def isSandboxSource (s : String) : Bool :=
  equalFold s "allow-downloads" ||
  equalFold s "allow-forms" ||
  equalFold s "allow-modals" ||
  equalFold s "allow-orientation-lock" ||
  equalFold s "allow-pointer-lock" ||
  equalFold s "allow-popups" ||
  equalFold s "allow-popups-to-escape-sandbox" ||
  equalFold s "allow-presentation" ||
  equalFold s "allow-same-origin" ||
  equalFold s "allow-scripts" ||
  equalFold s "allow-top-navigation" ||
  equalFold s "allow-top-navigation-by-user-activation" ||
  equalFold s "allow-top-navigation-to-custom-protocols"

/-- Go `isNonceSource`.  The length guard `len(s) > 9` counts bytes in Go;
every string matched by the pattern is ASCII, where byte count and
character count agree, so the guard is equivalent as conjoined here. -/
def isNonceSource (s : String) : Bool :=
  rmatch reNonceSource s && s.length > 9

/-- Go `isHashSource` (length guard as in `isNonceSource`). -/
def isHashSource (s : String) : Bool :=
  rmatch reHashSource s && s.length > 10

/-- Go `isMediaType`. -/
def isMediaType (s : String) : Bool :=
  rmatch reMediaType s

/-- Go `isWebRTCSource`. -/
def isWebRTCSource (s : String) : Bool :=
  equalFold s "'allow'" || equalFold s "'block'"

/-- RFC 9110 token characters, the character class of Go `isValidToken`
(digits, letters, the punctuation listed in the pattern, and the `+-.`
range which again also contains the comma). -/
def isTokenChar (c : Char) : Bool :=
  isDigitB c || isAlphaB c || "!#$%&'*".toList.contains c ||
  "+,-.".toList.contains c || "^_`|~".toList.contains c

/-- Go `isValidToken`. -/
def isValidToken (s : String) : Bool :=
  rmatch (rplus (.cls isTokenChar)) s

/-! ## The WHATWG URL model

`isValidReportingURL` and `handleReportingURLs` delegate to the external
library `github.com/nlnwa/whatwg-url`.  That dependency is modelled here by
its observable behaviour on the inputs this development evaluates: parsing
fails exactly when the input does not begin with a WHATWG scheme
(`ALPHA (ALPHA / DIGIT / "+" / "-" / ".")*`) followed by a colon, and the
serialisations with and without fragment (`Href(true)` vs `Href(false)`)
differ exactly when a `#` fragment marker is present.  The model agrees
with the repository's own `TestIsValidReportingURL` vectors, which force
`url.Parse` to fail on `""` and on scheme-less hosts (see
`isValidReportingURL_vectors` below). -/

/-- Scheme characters of the WHATWG URL grammar. -/
def urlSchemeChar (c : Char) : Bool :=
  isAlphaB c || isDigitB c || c = '+' || c = '-' || c = '.'

/-- The observable result of the external library's `url.Parse`. -/
structure URLRecord where
  scheme : String
  hasFragment : Bool
  fragment : String
deriving DecidableEq, Repr

/-- Model of the external library's `url.Parse` (no base URL): fails unless
the input starts with a scheme and a colon; records the fragment after the
first `#` of the remainder. -/
def urlParse (s : String) : Option URLRecord :=
  let cs := s.toList
  let pre := cs.takeWhile (fun c => !(c = ':'))
  if pre.length = cs.length then none
  else
    match pre with
    | [] => none
    | c :: rest =>
      if isAlphaB c && rest.all urlSchemeChar then
        let tail := cs.drop (pre.length + 1)
        let frag := tail.dropWhile (fun x => !(x = '#'))
        some ⟨⟨(c :: rest).map asciiLower⟩, !frag.isEmpty, ⟨frag.drop 1⟩⟩
      else none

/-- Go `isValidReportingURL`: the token parses as an absolute URL and its
serialisations with and without fragment agree (no fragment marker). -/
def isValidReportingURL (s : String) : Bool :=
  match urlParse s with
  | none => false
  | some u => !u.hasFragment

/-! ## Data model (`part_001`, type declarations) -/

/-- Go struct `SourceExpr`: one populated field among the six variants by
convention (proved as an invariant below, not enforced structurally). -/
structure SourceExpr where
  SchemeSource : String := ""
  HostSource : String := ""
  KeywordSource : String := ""
  NonceSource : String := ""
  HashSource : String := ""
  None : Bool := false
deriving DecidableEq, Repr

/-- Go struct `SourceListItem`. -/
structure SourceListItem where
  SourceExprs : List SourceExpr := []
deriving DecidableEq, Repr

/-- Go struct `AncestorExpr`. -/
structure AncestorExpr where
  SchemeSource : String := ""
  HostSource : String := ""
  None : Bool := false
deriving DecidableEq, Repr

/-- Go struct `AncestorSourceListItem`. -/
structure AncestorSourceListItem where
  AncestorExprs : List AncestorExpr := []
deriving DecidableEq, Repr

/-- Go struct `MediaTypeListItem`. -/
structure MediaTypeListItem where
  MediaTypes : List String := []
deriving DecidableEq, Repr

/-- Go struct `SandboxToken`. -/
structure SandboxToken where
  Allow : List String := []
deriving DecidableEq, Repr

/-- Go struct `URLRef`. -/
structure URLRef where
  URLs : List String := []
deriving DecidableEq, Repr

/-- Go struct `ReportingRef` (its `Tokens` map holds at most one entry; a
Go map is modelled as an association list). -/
structure ReportingRef where
  Tokens : List (String × String) := []
deriving DecidableEq, Repr

/-- Go struct `WebRTCToken`. -/
structure WebRTCToken where
  Value : String := ""
deriving DecidableEq, Repr

/-- Go struct `Policy` (the `Info` field is never written by the parser and
is omitted).  The defaults are Go's zero values, so `{}` is `&Policy{}`. -/
structure Policy where
  WebRTC : WebRTCToken := {}
  ChildSource : List SourceListItem := []
  ConnectSource : List SourceListItem := []
  DefaultSource : List SourceListItem := []
  FontSource : List SourceListItem := []
  FormAction : List SourceListItem := []
  FrameSource : List SourceListItem := []
  ImageSource : List SourceListItem := []
  ManifestSource : List SourceListItem := []
  MediaSource : List SourceListItem := []
  ObjectSource : List SourceListItem := []
  ScriptSource : List SourceListItem := []
  ScriptSourceAttr : List SourceListItem := []
  ScriptSourceElem : List SourceListItem := []
  StyleSource : List SourceListItem := []
  StyleSourceAttr : List SourceListItem := []
  StyleSourceElem : List SourceListItem := []
  WorkerSource : List SourceListItem := []
  FrameAncestors : List AncestorSourceListItem := []
  PluginTypes : List MediaTypeListItem := []
  ReportTo : List ReportingRef := []
  ReportURI : List URLRef := []
  Sandbox : List SandboxToken := []
  BaseURI : List SourceListItem := []
  BlockAllMixedContent : Bool := false
  UpgradeInsecureReq : Bool := false
deriving DecidableEq, Repr

/-! ## Error messages (`errors.go`) -/

/-- CSP-0001 (INFO): empty current URL. -/
def errCSP0001 : String :=
  "[INFO] currentURL is empty, so validation of 'self' sources is disabled [CSP-0001]"

/-- CSP-0002 (INFO): empty Reporting-Endpoints header. -/
def errCSP0002 : String :=
  "[INFO] reportingEndpointsHeader is empty, so validation of `report-to` is disabled [CSP-0002]"

/-- CSP-0100: invalid source-expression value. -/
def errCSP0100 (key value : String) : String :=
  "[ERROR] directive `" ++ key ++ "` has an invalid value `" ++ value ++ "` [CSP-0100]"

/-- CSP-0200: invalid ancestor-expression value. -/
def errCSP0200 (key value : String) : String :=
  "[ERROR] directive `" ++ key ++ "` has an invalid value `" ++ value ++ "` [CSP-0200]"

/-- CSP-0300: invalid plugin-types value. -/
def errCSP0300 (key value : String) : String :=
  "[ERROR] directive `" ++ key ++ "` has an invalid value `" ++ value ++ "` [CSP-0300]"

/-- CSP-0400: invalid reporting-URL value (the generic error). -/
def errCSP0400 (key value : String) : String :=
  "[ERROR] directive `" ++ key ++ "` has an invalid value `" ++ value ++ "` [CSP-0400]"

/-- CSP-0401: reporting-URL value unparsable as a URL. -/
def errCSP0401 (key value : String) : String :=
  "[ERROR] directive `" ++ key ++ "`: could not parse as a URL: `" ++ value ++ "` [CSP-0401]"

/-- CSP-0402: reporting-URL value missing a scheme. -/
def errCSP0402 (key value : String) : String :=
  "[ERROR] directive `" ++ key ++ "`: URL `" ++ value ++
    "` is missing a SCHEME, which is required [CSP-0402]"

/-- CSP-0403: reporting-URL value carrying a fragment. -/
def errCSP0403 (key value : String) : String :=
  "[ERROR] directive `" ++ key ++ "`: URL `" ++ value ++
    "` includes a FRAGMENT, which is disallowed [CSP-0403]"

/-- CSP-0501: `report-to` with other than one value. -/
def errCSP0501 (key : String) : String :=
  "[ERROR] directive `" ++ key ++ "` may only have a single value [CSP-0501]"

/-- CSP-0502: `report-to` referring to an undefined endpoint. -/
def errCSP0502 (key value : String) : String :=
  "[ERROR] directive `" ++ key ++ "` refers to undefined reporting endpoint `" ++
    value ++ "` [CSP-0502]"

/-- CSP-0600: invalid `webrtc` value. -/
def errCSP0600 (key value : String) : String :=
  "[ERROR] directive `" ++ key ++ "` has an invalid value `" ++ value ++ "` [CSP-0600]"

/-- CSP-0601: `webrtc` with other than one value. -/
def errCSP0601 (key : String) : String :=
  "[ERROR] directive `" ++ key ++ "` may only have a single value [CSP-0601]"

/-- CSP-0700: invalid sandbox value. -/
def errCSP0700 (key value : String) : String :=
  "[ERROR] directive `" ++ key ++ "` has an invalid value `" ++ value ++ "` [CSP-0700]"

/-- CSP-0801: obsolete `block-all-mixed-content`. -/
def errCSP0801 (key : String) : String :=
  "[ERROR] directive `" ++ key ++ "` is obsolete; use `upgrade-insecure-requests` instead [CSP-0801]"

/-- CSP-0802: deprecated `child-src`. -/
def errCSP0802 (key : String) : String :=
  "[ERROR] directive `" ++ key ++ "` is deprecated; use `frame-src` and/or `worker-src` instead [CSP-0802]"

/-- CSP-0803: removed experimental directive. -/
def errCSP0803 (key : String) : String :=
  "[ERROR] directive `" ++ key ++ "` was experimental in CSP3, but should now be removed from CSP policies [CSP-0803]"

/-- CSP-0804: obsolete `plugin-types`. -/
def errCSP0804 (key : String) : String :=
  "[ERROR] directive `" ++ key ++ "` is obsolete; remove this directive from the policy [CSP-0804]"

/-- CSP-0805 (WARN): `report-uri` deprecation advisory. -/
def errCSP0805 (key : String) : String :=
  "[WARN] directive `" ++ key ++ "` is valid in CSP2, but will be deprecated in CSP3 [CSP-0805]"

/-- CSP-0901: unknown directive. -/
def errCSP0901 (key : String) : String :=
  "[ERROR] unknown directive `" ++ key ++ "` [CSP-0901]"

/-- Reporting-Endpoints: token-pair without `=` (`part_001`). -/
def errREnoEq (tp : String) : String :=
  "[ERROR] token-pair `" ++ tp ++ "` does not contain an `=` character"

/-- Reporting-Endpoints: token-pair containing a space (`part_001`). -/
def errREspace (tp : String) : String :=
  "[ERROR] `" ++ tp ++ "` appears to be missing a comma between token-pairs"

/-- Reporting-Endpoints: split on `=` not yielding two parts (`part_001`). -/
def errREkv (tp : String) : String :=
  "[ERROR] token-pair `" ++ tp ++ "` is missing either a key or value"

/-- Reporting-Endpoints: empty key (`part_001`). -/
def errREnoKey (tp : String) : String :=
  "[ERROR] token-pair `" ++ tp ++ "` is missing a key"

/-- Reporting-Endpoints: key with invalid characters (`part_001`). -/
def errREbadKey (tp : String) : String :=
  "[ERROR] token-pair `" ++ tp ++ "` has a key with invalid characters"

/-- Reporting-Endpoints: empty value (`part_001`). -/
def errREnoURL (tp : String) : String :=
  "[ERROR] token-pair `" ++ tp ++ "` is missing a URL"

/-- Reporting-Endpoints: value not wrapped in double quotes (`part_001`). -/
def errREquotes (tp : String) : String :=
  "[ERROR] token-pair `" ++ tp ++ "` URL is not enclosed in double quotes"

/-- Reporting-Endpoints: unquoted value fails URL validation (`part_001`). -/
def errREbadURL (tp : String) : String :=
  "[ERROR] token-pair `" ++ tp ++ "` URL is not a valid URL"

/-! ## Directive handlers -/

/-- One iteration of the `handleSourceExpr` loop: the Go `switch` over the
classifiers, in source order, appending the first matching variant to the
collected list or recording a CSP-0100 error. -/
def srcStep (key : String) (acc : List SourceExpr × List String) (v : String) :
    List SourceExpr × List String :=
  if v = "'none'" then (acc.1 ++ [{ None := true }], acc.2)
  else if isSchemeSource v then (acc.1 ++ [{ SchemeSource := v }], acc.2)
  else if isHostSource v then (acc.1 ++ [{ HostSource := v }], acc.2)
  else if isKeywordSource v then (acc.1 ++ [{ KeywordSource := v }], acc.2)
  else if isNonceSource v then (acc.1 ++ [{ NonceSource := v }], acc.2)
  else if isHashSource v then (acc.1 ++ [{ HashSource := v }], acc.2)
  else (acc.1, acc.2 ++ [errCSP0100 key v])

/-- Go `handleSourceExpr`: the collected source expressions of the
`SourceListItem` together with the recorded errors. -/
def handleSourceExpr (values : List String) (key : String) :
    List SourceExpr × List String :=
  values.foldl (srcStep key) ([], [])

/-- One iteration of the `handleAncestorExpr` loop. -/
def ancStep (key : String) (acc : List AncestorExpr × List String) (v : String) :
    List AncestorExpr × List String :=
  if v = "'none'" then (acc.1 ++ [{ None := true }], acc.2)
  else if isSchemeSource v then (acc.1 ++ [{ SchemeSource := v }], acc.2)
  else if isHostSource v then (acc.1 ++ [{ HostSource := v }], acc.2)
  else (acc.1, acc.2 ++ [errCSP0200 key v])

/-- Go `handleAncestorExpr`. -/
def handleAncestorExpr (values : List String) (key : String) :
    List AncestorExpr × List String :=
  values.foldl (ancStep key) ([], [])

/-- Go `handlePluginTypes`. -/
def handlePluginTypes (values : List String) (key : String) :
    List String × List String :=
  values.foldl
    (fun acc v =>
      if isMediaType v then (acc.1 ++ [v], acc.2)
      else (acc.1, acc.2 ++ [errCSP0300 key v]))
    ([], [])

/-- One iteration of the `handleReportingURLs` loop.  A valid token is
collected; otherwise the token is re-parsed: when even that parse fails,
CSP-0401 is recorded and the Go `break` leaves the `switch` (skipping the
generic CSP-0400); when it succeeds, the scheme and fragment sub-errors are
recorded as applicable, followed by the generic CSP-0400. -/
def urlStep (key : String) (acc : URLRef × List String) (v : String) :
    URLRef × List String :=
  if isValidReportingURL v then ({ URLs := acc.1.URLs ++ [v] }, acc.2)
  else
    match urlParse v with
    | none => (acc.1, acc.2 ++ [errCSP0401 key v])
    | some u =>
      (acc.1, acc.2 ++
        (if u.scheme = "" then [errCSP0402 key v] else []) ++
        (if u.fragment = "" then [] else [errCSP0403 key v]) ++
        [errCSP0400 key v])

/-- Go `handleReportingURLs`. -/
def handleReportingURLs (values : List String) (key : String) :
    URLRef × List String :=
  values.foldl (urlStep key) ({ URLs := [] }, [])

/-- Go `handleSandbox`. -/
def handleSandbox (values : List String) (key : String) :
    List String × List String :=
  values.foldl
    (fun acc v =>
      if isSandboxSource v then (acc.1 ++ [v], acc.2)
      else (acc.1, acc.2 ++ [errCSP0700 key v]))
    ([], [])

/-- Go `handleWebRTC`: a valid value is stored in the token; an invalid one
leaves the zero value and records CSP-0600. -/
def handleWebRTC (value key : String) : WebRTCToken × List String :=
  if isWebRTCSource value then ({ Value := value }, [])
  else ({ Value := "" }, [errCSP0600 key value])

/-! ## Reporting-Endpoints header parser (`part_001`) -/

/-- Insertion into the Go map `values[key] = url`: a later insertion with
the same key overwrites the earlier one. -/
def mapInsert (m : List (String × String)) (k v : String) :
    List (String × String) :=
  if m.any (fun kv => kv.1 = k) then
    m.map (fun kv => if kv.1 = k then (k, v) else kv)
  else m ++ [(k, v)]

/-- One iteration of the `ParseReportingEndpoint` loop over comma-separated
token-pairs.  The `none` result models the Go panic on the slice expression
`url[1 : len(url)-1]` when the quoted value is the single character `"`
(slice bounds `1 > 0`). -/
def reStep (acc : List (String × String) × List String) (raw : String) :
    Option (List (String × String) × List String) :=
  let tokenPair := trimSpace raw
  if tokenPair = "" then some acc
  else if !containsChar tokenPair '=' then
    some (acc.1, acc.2 ++ [errREnoEq tokenPair])
  else if containsChar tokenPair ' ' then
    some (acc.1, acc.2 ++ [errREspace tokenPair])
  else
    match splitChar '=' tokenPair with
    | [k, u] =>
      if k = "" then some (acc.1, acc.2 ++ [errREnoKey tokenPair])
      else if !isValidToken k then some (acc.1, acc.2 ++ [errREbadKey tokenPair])
      else if u = "" then some (acc.1, acc.2 ++ [errREnoURL tokenPair])
      else
        let ucs := u.toList
        if !(ucs.head? = some '"' && ucs.getLast? = some '"') then
          some (acc.1, acc.2 ++ [errREquotes tokenPair])
        else if ucs.length = 1 then none
        else
          let stripped : String := ⟨(ucs.drop 1).dropLast⟩
          if !isValidReportingURL stripped then
            some (acc.1, acc.2 ++ [errREbadURL tokenPair])
          else some (mapInsert acc.1 k stripped, acc.2)
    | _ => some (acc.1, acc.2 ++ [errREkv tokenPair])

/-- Go `ParseReportingEndpoint`: the endpoint-name to URL mapping and the
recorded errors (`none` models a Go panic, see `reStep`). -/
def ParseReportingEndpoint (s : String) :
    Option (List (String × String) × List String) :=
  (splitChar ',' s).foldlM reStep ([], [])

/-- Go `handleReportTo`: parses the Reporting-Endpoints header, folds its
errors in, and resolves the referenced endpoint or records CSP-0502. -/
def handleReportTo (value key reportingEndpointsHeader : String) :
    Option (ReportingRef × List String) := do
  let (endpointMap, errs0) ← ParseReportingEndpoint reportingEndpointsHeader
  match List.lookup value endpointMap with
  | some url => some ({ Tokens := [(value, url)] }, errs0)
  | Option.none => some ({ Tokens := [] }, errs0 ++ [errCSP0502 key value])

/-! ## The `Parse` entry point (`reporting_endpoints_test.go`, parser chunk) -/

/-- The `switch strings.ToLower(key)` dispatcher of `Parse`.  The handlers
and the error messages receive the original-case `key`.  The `none` results
model the Go panics: `report-to` and `webrtc` evaluate `values[0]` even when
`values` is empty (after recording the single-value error, which the panic
then discards). -/
def dispatchDirective (reh : String) (p : Policy) (key : String)
    (values : List String) : Option (Policy × List String) :=
  let lkey := lowerStr key
  if lkey = "base-uri" then
    let r := handleSourceExpr values key
    some ({ p with BaseURI := p.BaseURI ++ [⟨r.1⟩] }, r.2)
  else if lkey = "block-all-mixed-content" then
    some ({ p with BlockAllMixedContent := true }, [errCSP0801 key])
  else if lkey = "child-src" then
    let r := handleSourceExpr values key
    some ({ p with ChildSource := p.ChildSource ++ [⟨r.1⟩] }, r.2 ++ [errCSP0802 key])
  else if lkey = "connect-src" then
    let r := handleSourceExpr values key
    some ({ p with ConnectSource := p.ConnectSource ++ [⟨r.1⟩] }, r.2)
  else if lkey = "default-src" then
    let r := handleSourceExpr values key
    some ({ p with DefaultSource := p.DefaultSource ++ [⟨r.1⟩] }, r.2)
  else if lkey = "font-src" then
    let r := handleSourceExpr values key
    some ({ p with FontSource := p.FontSource ++ [⟨r.1⟩] }, r.2)
  else if lkey = "form-action" then
    let r := handleSourceExpr values key
    some ({ p with FormAction := p.FormAction ++ [⟨r.1⟩] }, r.2)
  else if lkey = "frame-ancestors" then
    let r := handleAncestorExpr values key
    some ({ p with FrameAncestors := p.FrameAncestors ++ [⟨r.1⟩] }, r.2)
  else if lkey = "frame-src" then
    let r := handleSourceExpr values key
    some ({ p with FrameSource := p.FrameSource ++ [⟨r.1⟩] }, r.2)
  else if lkey = "img-src" then
    let r := handleSourceExpr values key
    some ({ p with ImageSource := p.ImageSource ++ [⟨r.1⟩] }, r.2)
  else if lkey = "manifest-src" then
    let r := handleSourceExpr values key
    some ({ p with ManifestSource := p.ManifestSource ++ [⟨r.1⟩] }, r.2)
  else if lkey = "media-src" then
    let r := handleSourceExpr values key
    some ({ p with MediaSource := p.MediaSource ++ [⟨r.1⟩] }, r.2)
  else if lkey = "navigate-to" then
    some (p, [errCSP0803 key])
  else if lkey = "object-src" then
    let r := handleSourceExpr values key
    some ({ p with ObjectSource := p.ObjectSource ++ [⟨r.1⟩] }, r.2)
  else if lkey = "plugin-types" then
    let r := handlePluginTypes values key
    some ({ p with PluginTypes := p.PluginTypes ++ [⟨r.1⟩] }, r.2 ++ [errCSP0804 key])
  else if lkey = "prefetch-src" then
    some (p, [errCSP0803 key])
  else if lkey = "referrer" then
    some (p, [errCSP0803 key])
  else if lkey = "report-to" then
    let errs0 := if values.length = 1 then [] else [errCSP0501 key]
    match values with
    | [] => none
    | v :: _ => do
      let r ← handleReportTo v key reh
      some ({ p with ReportTo := p.ReportTo ++ [r.1] }, errs0 ++ r.2)
  else if lkey = "report-uri" then
    let r := handleReportingURLs values key
    some ({ p with ReportURI := p.ReportURI ++ [r.1] }, r.2 ++ [errCSP0805 key])
  else if lkey = "sandbox" then
    let r := handleSandbox values key
    some ({ p with Sandbox := p.Sandbox ++ [⟨r.1⟩] }, r.2)
  else if lkey = "script-src" then
    let r := handleSourceExpr values key
    some ({ p with ScriptSource := p.ScriptSource ++ [⟨r.1⟩] }, r.2)
  else if lkey = "script-src-attr" then
    let r := handleSourceExpr values key
    some ({ p with ScriptSourceAttr := p.ScriptSourceAttr ++ [⟨r.1⟩] }, r.2)
  else if lkey = "script-src-elem" then
    let r := handleSourceExpr values key
    some ({ p with ScriptSourceElem := p.ScriptSourceElem ++ [⟨r.1⟩] }, r.2)
  else if lkey = "style-src" then
    let r := handleSourceExpr values key
    some ({ p with StyleSource := p.StyleSource ++ [⟨r.1⟩] }, r.2)
  else if lkey = "style-src-attr" then
    let r := handleSourceExpr values key
    some ({ p with StyleSourceAttr := p.StyleSourceAttr ++ [⟨r.1⟩] }, r.2)
  else if lkey = "style-src-elem" then
    let r := handleSourceExpr values key
    some ({ p with StyleSourceElem := p.StyleSourceElem ++ [⟨r.1⟩] }, r.2)
  else if lkey = "upgrade-insecure-requests" then
    some ({ p with UpgradeInsecureReq := true }, [])
  else if lkey = "webrtc" then
    let errs0 := if values.length = 1 then [] else [errCSP0601 key]
    match values with
    | [] => none
    | v :: _ =>
      let r := handleWebRTC v key
      some ({ p with WebRTC := r.1 }, errs0 ++ r.2)
  else if lkey = "worker-src" then
    let r := handleSourceExpr values key
    some ({ p with WorkerSource := p.WorkerSource ++ [⟨r.1⟩] }, r.2)
  else
    some (p, [errCSP0901 key])

/-- One iteration of the directive loop of `Parse`: trim the raw segment,
silently skip it when empty, otherwise collapse whitespace, split on
spaces into the directive name and its values, and dispatch.  (The split
of a non-empty string always yields at least one token, so the Go guard
`len(kv) > 0` always fires.) -/
def processRawDirective (reh : String) (st : Policy × List String)
    (raw : String) : Option (Policy × List String) :=
  let directive := trimSpace raw
  if directive = "" then some st
  else
    match splitChar ' ' (collapseWs directive) with
    | [] => some st
    | key :: values => do
      let (p, es) ← dispatchDirective reh st.1 key values
      some (p, st.2 ++ es)

/-- The per-policy-string loop body of `Parse`: split on `;` and fold the
directive processor over the segments, starting from `&Policy{}`. -/
def parsePolicyString (reh policy : String) : Option (Policy × List String) :=
  (splitChar ';' policy).foldlM (processRawDirective reh) ({}, [])

/-- Go `Parse` before the final `ErrorOrNil`: the INFO advisories for empty
configuration inputs, then one parsed `Policy` per input string, all errors
accumulated in order.  `none` models a Go panic. -/
def ParseAll (currentURL reh : String) (policies : List String) :
    Option (List Policy × List String) :=
  let errs :=
    (if currentURL = "" then [errCSP0001] else []) ++
    (if reh = "" then [errCSP0002] else [])
  policies.foldlM
    (fun acc policy => do
      let (p, es) ← parsePolicyString reh policy
      some (acc.1 ++ [p], acc.2 ++ es))
    ([], errs)

/-- `(*multierror.Error).ErrorOrNil`: `nil` exactly when no error was
collected. -/
def ErrorOrNil (es : List String) : Option (List String) :=
  if es = [] then none else some es

/-- Go `Parse`: the parsed policies together with
`errs.ErrorOrNil()` (`Option.none` in the second component is Go's `nil`
error); an overall `none` models a Go panic. -/
def Parse (currentURL reh : String) (policies : List String) :
    Option (List Policy × Option (List String)) := do
  let (ps, es) ← ParseAll currentURL reh policies
  some (ps, ErrorOrNil es)

/-! ## Characterisation of the source-expression classifier -/

/-- The per-token outcome of the `handleSourceExpr` switch: the variant the
token is recorded under (first matching classifier, in the precedence order
of the source), or `none` when no classifier matches. -/
def classifySourceExpr (v : String) : Option SourceExpr :=
  if v = "'none'" then some { None := true }
  else if isSchemeSource v then some { SchemeSource := v }
  else if isHostSource v then some { HostSource := v }
  else if isKeywordSource v then some { KeywordSource := v }
  else if isNonceSource v then some { NonceSource := v }
  else if isHashSource v then some { HashSource := v }
  else none

/-- How many of the six variant fields of a `SourceExpr` are populated. -/
def variantCount (e : SourceExpr) : Nat :=
  (if e.SchemeSource = "" then 0 else 1) +
  (if e.HostSource = "" then 0 else 1) +
  (if e.KeywordSource = "" then 0 else 1) +
  (if e.NonceSource = "" then 0 else 1) +
  (if e.HashSource = "" then 0 else 1) +
  (if e.None then 1 else 0)

/-- A `SourceExpr` carries the token `v` it was classified from: either the
`'none'` marker, or exactly the variant record whose one populated string
field is `v` itself, unmodified. -/
def tokenMatches (v : String) (e : SourceExpr) : Prop :=
  (v = "'none'" ∧ e = { None := true }) ∨
  e = { SchemeSource := v } ∨
  e = { HostSource := v } ∨
  e = { KeywordSource := v } ∨
  e = { NonceSource := v } ∨
  e = { HashSource := v }

/-- The switch body of `handleSourceExpr` appends exactly the classifier
outcome of the token (or the CSP-0100 error). -/
theorem srcStep_classify (key : String) (acc : List SourceExpr × List String)
    (v : String) :
    srcStep key acc v =
      match classifySourceExpr v with
      | some e => (acc.1 ++ [e], acc.2)
      | Option.none => (acc.1, acc.2 ++ [errCSP0100 key v]) := by
  unfold srcStep classifySourceExpr
  split_ifs <;> rfl

/-- Generalised fold form of `handleSourceExpr`: starting from any
accumulator, the loop appends the classified variants of all tokens in
order and the CSP-0100 errors of all unclassifiable tokens in order. -/
theorem foldl_srcStep (key : String) (values : List String)
    (acc : List SourceExpr × List String) :
    values.foldl (srcStep key) acc =
      (acc.1 ++ values.filterMap classifySourceExpr,
       acc.2 ++
         (values.filter (fun v => (classifySourceExpr v).isNone)).map
           (fun v => errCSP0100 key v)) := by
  induction values generalizing acc with
  | nil => simp
  | cons v vs ih =>
    rw [List.foldl_cons, srcStep_classify]
    cases hc : classifySourceExpr v with
    | none => simp [ih, hc, List.filter_cons]
    | some e => simp [ih, hc, List.filter_cons]

/-- `handleSourceExpr` in closed form. -/
theorem handleSourceExpr_eq (values : List String) (key : String) :
    handleSourceExpr values key =
      (values.filterMap classifySourceExpr,
       (values.filter (fun v => (classifySourceExpr v).isNone)).map
         (fun v => errCSP0100 key v)) := by
  simpa using foldl_srcStep key values ([], [])

/-- A classified token is recorded with its original text: case analysis on
the branch of the classifier switch that matched. -/
theorem classifySourceExpr_shape (v : String) (e : SourceExpr)
    (h : classifySourceExpr v = some e) : tokenMatches v e := by
  unfold classifySourceExpr at h
  unfold tokenMatches
  split_ifs at h <;> simp_all

/-- None of the classifiers accepts the empty string. -/
theorem classifiers_reject_empty :
    isSchemeSource "" = false ∧ isHostSource "" = false ∧
    isKeywordSource "" = false ∧ isNonceSource "" = false ∧
    isHashSource "" = false := by decide

/-- Every classified `SourceExpr` has exactly one populated variant. -/
theorem classifySourceExpr_variantCount (v : String) (e : SourceExpr)
    (h : classifySourceExpr v = some e) : variantCount e = 1 := by
  unfold classifySourceExpr at h
  split_ifs at h with h1 h2 h3 h4 h5 h6 <;>
    (injection h with he; subst he; unfold variantCount)
  · rfl
  · have hv : v ≠ "" := by
      intro hv; rw [hv] at h2; exact absurd h2 (by decide)
    simp [hv]
  · have hv : v ≠ "" := by
      intro hv; rw [hv] at h3; exact absurd h3 (by decide)
    simp [hv]
  · have hv : v ≠ "" := by
      intro hv; rw [hv] at h4; exact absurd h4 (by decide)
    simp [hv]
  · have hv : v ≠ "" := by
      intro hv; rw [hv] at h5; exact absurd h5 (by decide)
    simp [hv]
  · have hv : v ≠ "" := by
      intro hv; rw [hv] at h6; exact absurd h6 (by decide)
    simp [hv]

/-- A token recorded under the host-source variant really is a host source,
was not the `'none'` literal, and was not a scheme source (the two
classifiers ahead of it in precedence order); its record populates only the
`HostSource` field. -/
theorem classifySourceExpr_host (v : String) (e : SourceExpr)
    (h : classifySourceExpr v = some e) (hh : e.HostSource ≠ "") :
    v ≠ "'none'" ∧ isSchemeSource v = false ∧ isHostSource v = true ∧
      e = { HostSource := v } := by
  unfold classifySourceExpr at h
  split_ifs at h with h1 h2 h3 <;> (injection h with he; subst he) <;>
    simp_all

/-! ## Characterisation of the dispatcher and of `handleReportingURLs` -/

/-- The directive names recognised by the `switch` of `Parse`, in source
order. -/
def knownDirectives : List String :=
  ["base-uri", "block-all-mixed-content", "child-src", "connect-src",
   "default-src", "font-src", "form-action", "frame-ancestors", "frame-src",
   "img-src", "manifest-src", "media-src", "navigate-to", "object-src",
   "plugin-types", "prefetch-src", "referrer", "report-to", "report-uri",
   "sandbox", "script-src", "script-src-attr", "script-src-elem",
   "style-src", "style-src-attr", "style-src-elem",
   "upgrade-insecure-requests", "webrtc", "worker-src"]

/-- An unrecognised directive name falls to the `default` case: the policy
is left untouched, CSP-0901 is recorded, and (the loop being a fold) the
remaining directives are still processed. -/
theorem dispatch_unknown (reh : String) (p : Policy) (key : String)
    (values : List String) (h : lowerStr key ∉ knownDirectives) :
    dispatchDirective reh p key values = some (p, [errCSP0901 key]) := by
  have hne : ∀ d ∈ knownDirectives, ¬ lowerStr key = d :=
    fun d hd he => h (he ▸ hd)
  simp only [dispatchDirective]
  rw [if_neg (hne "base-uri" (by decide)),
    if_neg (hne "block-all-mixed-content" (by decide)),
    if_neg (hne "child-src" (by decide)),
    if_neg (hne "connect-src" (by decide)),
    if_neg (hne "default-src" (by decide)),
    if_neg (hne "font-src" (by decide)),
    if_neg (hne "form-action" (by decide)),
    if_neg (hne "frame-ancestors" (by decide)),
    if_neg (hne "frame-src" (by decide)),
    if_neg (hne "img-src" (by decide)),
    if_neg (hne "manifest-src" (by decide)),
    if_neg (hne "media-src" (by decide)),
    if_neg (hne "navigate-to" (by decide)),
    if_neg (hne "object-src" (by decide)),
    if_neg (hne "plugin-types" (by decide)),
    if_neg (hne "prefetch-src" (by decide)),
    if_neg (hne "referrer" (by decide)),
    if_neg (hne "report-to" (by decide)),
    if_neg (hne "report-uri" (by decide)),
    if_neg (hne "sandbox" (by decide)),
    if_neg (hne "script-src" (by decide)),
    if_neg (hne "script-src-attr" (by decide)),
    if_neg (hne "script-src-elem" (by decide)),
    if_neg (hne "style-src" (by decide)),
    if_neg (hne "style-src-attr" (by decide)),
    if_neg (hne "style-src-elem" (by decide)),
    if_neg (hne "upgrade-insecure-requests" (by decide)),
    if_neg (hne "webrtc" (by decide)),
    if_neg (hne "worker-src" (by decide))]

/-- One step of the `handleReportingURLs` loop only appends to the
accumulators. -/
theorem urlStep_acc (key : String) (acc : URLRef × List String)
    (v : String) :
    urlStep key acc v =
      (⟨acc.1.URLs ++ (urlStep key (⟨[]⟩, []) v).1.URLs⟩,
       acc.2 ++ (urlStep key (⟨[]⟩, []) v).2) := by
  unfold urlStep
  by_cases h : isValidReportingURL v = true
  · simp [h]
  · simp only [h]
    cases hp : urlParse v <;> simp [hp]

/-- Generalised fold form of `handleReportingURLs`. -/
theorem foldl_urlStep (key : String) (values : List String)
    (acc : URLRef × List String) :
    values.foldl (urlStep key) acc =
      (⟨acc.1.URLs ++ (handleReportingURLs values key).1.URLs⟩,
       acc.2 ++ (handleReportingURLs values key).2) := by
  induction values generalizing acc with
  | nil =>
    unfold handleReportingURLs
    simp only [List.foldl_nil, List.append_nil]
  | cons v vs ih =>
    have hcons : handleReportingURLs (v :: vs) key =
        (⟨(urlStep key (⟨[]⟩, []) v).1.URLs ++
            (handleReportingURLs vs key).1.URLs⟩,
         (urlStep key (⟨[]⟩, []) v).2 ++ (handleReportingURLs vs key).2) := by
      show (v :: vs).foldl (urlStep key) (⟨[]⟩, []) = _
      rw [List.foldl_cons]
      exact ih _
    rw [List.foldl_cons, ih (urlStep key acc v), hcons,
      urlStep_acc key acc v]
    simp [List.append_assoc]

/-- `handleReportingURLs` distributes over list append: each token is
classified independently and the loop never aborts early. -/
theorem handleReportingURLs_append (values1 values2 : List String)
    (key : String) :
    handleReportingURLs (values1 ++ values2) key =
      (⟨(handleReportingURLs values1 key).1.URLs ++
          (handleReportingURLs values2 key).1.URLs⟩,
       (handleReportingURLs values1 key).2 ++
         (handleReportingURLs values2 key).2) := by
  unfold handleReportingURLs
  rw [List.foldl_append, foldl_urlStep]
  rfl

/-! ## Validation against the repository's own test vectors -/

/-- Vectors of `TestIsSchemeSource`. -/
theorem isSchemeSource_vectors :
    isSchemeSource "" = false ∧ isSchemeSource "http:" = true ∧
    isSchemeSource "https:" = true ∧ isSchemeSource "mailto:" = true ∧
    isSchemeSource "webcal" = false ∧
    isSchemeSource "apple-otpauth:" = true ∧
    isSchemeSource "cloudkit-icloud.com.dayoneapp:" = true ∧
    isSchemeSource "x-man-page:" = true := by
  decide

/-- Vectors of `TestIsHostSource` (including the non-ASCII rejections). -/
theorem isHostSource_vectors :
    isHostSource "" = false ∧
    isHostSource "https://example.com" = true ∧
    isHostSource "https://example.com/" = false ∧
    isHostSource "https://example.com./" = false ∧
    isHostSource "x-man-page:find" = false ∧
    isHostSource "www.google-analytics.com" = true ∧
    isHostSource "www.googletagmanager.com/gtag/js" = true ∧
    isHostSource "*.http.atlas.cdn.yimg.com" = true ∧
    isHostSource "*.staticflickr.com" = true ∧
    isHostSource "stats.g.doubleclick.net" = true ∧
    isHostSource "www.google.co.in" = true ∧
    isHostSource "yourmomü.com" = false ∧
    isHostSource "ουτοπία.δπθ.gr" = false ∧
    isHostSource "xn--kxae4bafwg.xn--pxaix.gr" = true := by
  decide

/-- Vectors of `TestIsKeywordSource`. -/
theorem isKeywordSource_vectors :
    isKeywordSource "" = false ∧ isKeywordSource "'self'" = true ∧
    isKeywordSource "'unsafe-inline'" = true ∧
    isKeywordSource "'unsafe-eval'" = true ∧
    isKeywordSource "\"self\"" = false ∧
    isKeywordSource "self" = false ∧
    isKeywordSource "unsafe-inline" = false := by
  decide

/-- Vectors of `TestIsNonceSource`. -/
theorem isNonceSource_vectors :
    isNonceSource "" = false ∧ isNonceSource "nonce" = false ∧
    isNonceSource "'nonce'" = false ∧ isNonceSource "'nonce-'" = false ∧
    isNonceSource "nonce-r4nd0m" = false ∧
    isNonceSource "'nonce-r4nd0m'" = true ∧
    isNonceSource "\"nonce-r4nd0m\"" = false := by
  decide

/-- Vectors of `TestIsHashSource`. -/
theorem isHashSource_vectors :
    isHashSource "" = false ∧ isHashSource "'sha256'" = false ∧
    isHashSource "'sha256-'" = false ∧
    isHashSource "'sha256-r4nd0m'" = true ∧
    isHashSource "'sha384-r4nd0m'" = true ∧
    isHashSource "'sha512-r4nd0m'" = true ∧
    isHashSource "'sha128-r4nd0m'" = false ∧
    isHashSource "'sha1-r4nd0m'" = false ∧
    isHashSource "sha256-r4nd0m" = false := by
  decide

/-- Vectors of `TestIsMediaType`. -/
theorem isMediaType_vectors :
    isMediaType "" = false ∧
    isMediaType "application/3gppHalForms+json" = true ∧
    isMediaType "application/EmergencyCallData.ServiceInfo+xml" = true ∧
    isMediaType "application/TETRA_ISI" = true ∧
    isMediaType "audio/aac" = true ∧
    isMediaType "image/svg+xml" = true ∧
    isMediaType "multipart/form-data" = true ∧
    isMediaType "video/vnd.iptvforum.2dparityfec-2005" = true ∧
    isMediaType "txt/plain" = false ∧
    isMediaType "img/png" = false ∧
    isMediaType "application/*" = false := by
  decide

/-- Vectors of `TestIsSandboxSource`. -/
theorem isSandboxSource_vectors :
    isSandboxSource "" = false ∧
    isSandboxSource "allow-forms" = true ∧
    isSandboxSource "allow-pointer-lock" = true ∧
    isSandboxSource "ALLOW-SCRIPTS" = true ∧
    isSandboxSource "allowForms" = false ∧
    isSandboxSource "allow_forms" = false := by
  decide

/-- Vectors of `TestIsValidReportingURL`.  The two scheme-less host names
force the modelled `url.Parse` to fail, pinning the URL model to the
library behaviour the repository itself tests. -/
theorem isValidReportingURL_vectors :
    isValidReportingURL "" = false ∧
    isValidReportingURL "www.google-analytics.com" = false ∧
    isValidReportingURL "static.cloudflareinsights.com" = false ∧
    isValidReportingURL "*.static.flickr.com" = false ∧
    isValidReportingURL "https://ryanparman.report-uri.com/r/d/csp/wizard" = true ∧
    isValidReportingURL "https://ryanparman.report-uri.com/r/d/csp/wizard#fail" = false := by
  decide

/-- Vectors of `TestParseReportingEndpoints` that the code satisfies: each
grammar violation is reported with the message the test expects, and a
valid single token-pair is stored with its quotes stripped. -/
theorem parseReportingEndpoint_vectors :
    ParseReportingEndpoint "" = some ([], []) ∧
    ParseReportingEndpoint "endpoint-1=" =
      some ([], [errREnoURL "endpoint-1="]) ∧
    ParseReportingEndpoint "=\"https://example.com/reports\"" =
      some ([], [errREnoKey "=\"https://example.com/reports\""]) ∧
    ParseReportingEndpoint "endpoint:1=\"https://example.com/reports\"" =
      some ([], [errREbadKey "endpoint:1=\"https://example.com/reports\""]) ∧
    ParseReportingEndpoint "endpoint-1=https://example.com/reports" =
      some ([], [errREquotes "endpoint-1=https://example.com/reports"]) ∧
    ParseReportingEndpoint "endpoint-1='https://example.com/reports'" =
      some ([], [errREquotes "endpoint-1='https://example.com/reports'"]) ∧
    ParseReportingEndpoint "endpoint-1=\"https://example.com/reports\"" =
      some ([("endpoint-1", "https://example.com/reports")], []) := by
  refine ⟨?_, ?_, ?_, ?_, ?_, ?_, ?_⟩ <;> decide

/-! ## The claims -/

/-- C1: the claim states that `Parse` is total — it never panics and always
returns a per-input `Policy` and an aggregated error, including on a
directive with zero values such as the policy `report-to`.  The code
violates this: after recording the single-value error, the `report-to` case
unconditionally evaluates `values[0]`, which on an empty value list is an
out-of-range slice index and panics (modelled by `none`); the other
malformed inputs the claim lists (empty string, stray semicolons,
non-ASCII) are indeed handled totally. -/
theorem spec_C1 :
    Parse "u" "e" ["report-to"] = none ∧
    Parse "u" "e" [""] = some ([{}], none) ∧
    Parse "u" "e" [" ; ;; "] = some ([{}], none) ∧
    Parse "u" "e" ["üdirective foo"] =
      some ([{}], some [errCSP0901 "üdirective"]) := by
  refine ⟨by decide, by decide, by decide, by decide⟩

/-- C2: the claim states that `Parse` never aborts on a bad token or
directive and collects every validation error.  Unknown directives indeed
never abort: the `default` case records CSP-0901 and leaves the policy
untouched (first conjunct), so in the scenario `foo-bar baz; style-src
'self'` the unknown directive is reported while `style-src` still populates
(second conjunct).  But the claim's universal form is violated by the code:
a zero-value `webrtc` directive panics, aborting the whole parse and
discarding every error collected before it (third conjunct). -/
theorem spec_C2 :
    (∀ (reh : String) (p : Policy) (key : String) (values : List String),
        lowerStr key ∉ knownDirectives →
        dispatchDirective reh p key values = some (p, [errCSP0901 key])) ∧
    Parse "u" "e" ["foo-bar baz; style-src 'self'"] =
      some ([{ StyleSource := [⟨[{ KeywordSource := "'self'" }]⟩] }],
        some [errCSP0901 "foo-bar"]) ∧
    Parse "u" "e" ["foo-bar baz; webrtc; style-src 'self'"] = none := by
  refine ⟨dispatch_unknown, by decide, by decide⟩

/-- C2 witness: the unknown-directive branch of the dispatcher at the
concrete name `foo-bar`. -/
theorem spec_C2_witness :
    dispatchDirective "e" {} "foo-bar" ["baz"] =
      some ({}, [errCSP0901 "foo-bar"]) :=
  spec_C2.1 "e" {} "foo-bar" ["baz"] (by decide)

/-- C3: `handleSourceExpr` classifies each token by the first matching
classifier in the precedence order of the source (`'none'`, scheme, host,
keyword, nonce, hash), appending exactly one variant per classified token
and one CSP-0100 error (naming directive and token) per unclassifiable
token, in order, without aborting (first conjunct); a token recorded as a
host source satisfies the host grammar, is not the `'none'` literal nor a
scheme source, and is recorded under no other variant (second and third
conjuncts). -/
theorem spec_C3 :
    (∀ (values : List String) (key : String),
        handleSourceExpr values key =
          (values.filterMap classifySourceExpr,
           (values.filter (fun v => (classifySourceExpr v).isNone)).map
             (fun v => errCSP0100 key v))) ∧
    (∀ (v : String) (e : SourceExpr), classifySourceExpr v = some e →
        e.HostSource ≠ "" →
        v ≠ "'none'" ∧ isSchemeSource v = false ∧ isHostSource v = true ∧
          e = { HostSource := v }) ∧
    (∀ (v : String) (e : SourceExpr), classifySourceExpr v = some e →
        variantCount e = 1) :=
  ⟨handleSourceExpr_eq, classifySourceExpr_host,
   classifySourceExpr_variantCount⟩

/-- C3 witness: the host-classified token `fonts.example.com` satisfies the
host grammar and its record has exactly one populated variant. -/
theorem spec_C3_witness :
    isHostSource "fonts.example.com" = true ∧
    variantCount { HostSource := "fonts.example.com" } = 1 :=
  ⟨(spec_C3.2.1 "fonts.example.com" { HostSource := "fonts.example.com" }
      (by decide) (by decide)).2.2.1,
   spec_C3.2.2 "fonts.example.com" { HostSource := "fonts.example.com" }
     (by decide)⟩

/-- C4: `Parse` returns a nil combined error exactly when no error was
collected (`ErrorOrNil`), and the scenario `script-src 'self'
'nonce-rAnd0m'` (with the configuration inputs supplied, so that no INFO
advisory fires) yields one `SourceListItem` with the keyword and nonce
expressions in order, and a nil error. -/
theorem spec_C4 :
    (∀ es : List String, ErrorOrNil es = none ↔ es = []) ∧
    Parse "u" "e" ["script-src 'self' 'nonce-rAnd0m'"] =
      some ([{ ScriptSource :=
        [⟨[{ KeywordSource := "'self'" },
           { NonceSource := "'nonce-rAnd0m'" }]⟩] }], none) := by
  constructor
  · intro es
    unfold ErrorOrNil
    split_ifs with h <;> simp [h]
  · decide

/-- C5: `isHostSource` accepts the literal `127.0.0.1` and rejects every
other dotted-quad-shaped string (four 1-3 digit groups separated by dots,
the language of `reIPv4Dumb`), while accepting host expressions with
optional `scheme://` prefix, wildcard labels, optional port (digits or
`*`), and optional path segments. -/
theorem spec_C5 :
    isHostSource "127.0.0.1" = true ∧
    (∀ s : String, rmatch reIPv4Dumb s = true → s ≠ "127.0.0.1" →
        isHostSource s = false) ∧
    isHostSource "https://*.example.com:8080/path/to" = true ∧
    isHostSource "*.example.com" = true ∧
    isHostSource "example.com:*" = true ∧
    isHostSource "shop.example.com:443/catalog" = true := by
  refine ⟨by decide, ?_, by decide, by decide, by decide, by decide⟩
  intro s h1 h2
  unfold isHostSource
  rw [h1]
  simp [h2]

/-- C5 witness: the dotted quad `10.0.0.1` is rejected. -/
theorem spec_C5_witness :
    rmatch reIPv4Dumb "10.0.0.1" = true ∧ isHostSource "10.0.0.1" = false :=
  ⟨by decide, spec_C5.2.1 "10.0.0.1" (by decide) (by decide)⟩

/-- C6: the claim states that a `webrtc` directive with more or fewer than
one value records the single-value error CSP-0601, and that a single value
is valid iff it case-insensitively equals `'allow'` or `'block'`.  The
"more than one value" and validity parts hold (later conjuncts: `webrtc
'allow'` stores the token with nil error, case-insensitively; two values
record CSP-0601; an invalid value records CSP-0600) — but with zero values
the code records the error and then panics evaluating `values[0]`, so the
error is never returned (first conjunct). -/
theorem spec_C6 :
    Parse "u" "e" ["webrtc"] = none ∧
    Parse "u" "e" ["webrtc 'allow'"] =
      some ([{ WebRTC := ⟨"'allow'"⟩ }], none) ∧
    Parse "u" "e" ["webrtc 'ALLOW'"] =
      some ([{ WebRTC := ⟨"'ALLOW'"⟩ }], none) ∧
    Parse "u" "e" ["webrtc 'allow' 'block'"] =
      some ([{ WebRTC := ⟨"'allow'"⟩ }], some [errCSP0601 "webrtc"]) ∧
    Parse "u" "e" ["webrtc 'deny'"] =
      some ([{ WebRTC := ⟨""⟩ }], some [errCSP0600 "webrtc" "'deny'"]) := by
  refine ⟨by decide, by decide, by decide, by decide, by decide⟩

/-- C7 (amended): `handleReportingURLs` processes tokens independently and
never aborts (first conjunct); a valid absolute URL is collected with no
error (second); a token that does not even parse as a URL records only the
CSP-0401 could-not-parse error — the generic CSP-0400 is skipped by the
early `break` (third); a token that parses but carries a fragment records
the applicable scheme/fragment sub-errors followed by the generic CSP-0400
(fourth). -/
theorem spec_C7 :
    (∀ (values1 values2 : List String) (key : String),
        handleReportingURLs (values1 ++ values2) key =
          (⟨(handleReportingURLs values1 key).1.URLs ++
              (handleReportingURLs values2 key).1.URLs⟩,
           (handleReportingURLs values1 key).2 ++
             (handleReportingURLs values2 key).2)) ∧
    (∀ (key v : String), isValidReportingURL v = true →
        handleReportingURLs [v] key = (⟨[v]⟩, [])) ∧
    (∀ (key v : String), urlParse v = none →
        handleReportingURLs [v] key = (⟨[]⟩, [errCSP0401 key v])) ∧
    (∀ (key v : String) (u : URLRecord), urlParse v = some u →
        u.hasFragment = true →
        handleReportingURLs [v] key =
          (⟨[]⟩,
            (if u.scheme = "" then [errCSP0402 key v] else []) ++
            (if u.fragment = "" then [] else [errCSP0403 key v]) ++
            [errCSP0400 key v])) := by
  refine ⟨handleReportingURLs_append, ?_, ?_, ?_⟩
  · intro key v h
    show urlStep key (⟨[]⟩, []) v = _
    unfold urlStep
    rw [if_pos h]
    rfl
  · intro key v h
    have hv : isValidReportingURL v = false := by
      unfold isValidReportingURL
      rw [h]
    show urlStep key (⟨[]⟩, []) v = _
    unfold urlStep
    rw [if_neg (by simp [hv]), h]
    rfl
  · intro key v u h hf
    have hv : isValidReportingURL v = false := by
      unfold isValidReportingURL
      rw [h]
      simp [hf]
    show urlStep key (⟨[]⟩, []) v = _
    unfold urlStep
    rw [if_neg (by simp [hv]), h]
    simp [List.append_assoc]

/-- C7 counterexample: the claim as stated — the generic invalid-value
error is always recorded for a failing token — is false: for the failing
token `www.google-analytics.com` (unparsable as a URL, per the repository's
own `TestIsValidReportingURL` vector) the error list is exactly the
CSP-0401 sub-error and the generic CSP-0400 is absent. -/
theorem spec_C7_counterexample :
    (handleReportingURLs ["www.google-analytics.com"] "report-uri").2 =
      [errCSP0401 "report-uri" "www.google-analytics.com"] ∧
    errCSP0400 "report-uri" "www.google-analytics.com" ∉
      (handleReportingURLs ["www.google-analytics.com"] "report-uri").2 := by
  refine ⟨by decide, by decide⟩

/-- C7 witness: a parsable token with a fragment records the fragment
sub-error and the generic error; a valid token is collected silently. -/
theorem spec_C7_witness :
    handleReportingURLs ["https://example.com/a#b"] "report-uri" =
      (⟨[]⟩,
        (if ("https" : String) = ""
          then [errCSP0402 "report-uri" "https://example.com/a#b"] else []) ++
        (if ("b" : String) = ""
          then [] else [errCSP0403 "report-uri" "https://example.com/a#b"]) ++
        [errCSP0400 "report-uri" "https://example.com/a#b"]) ∧
    handleReportingURLs ["https://example.com/ok"] "report-uri" =
      (⟨["https://example.com/ok"]⟩, []) :=
  ⟨spec_C7.2.2.2 "report-uri" "https://example.com/a#b" ⟨"https", true, "b"⟩
      (by decide) (by decide),
   spec_C7.2.1 "report-uri" "https://example.com/ok" (by decide)⟩

/-- C8: the claim (and the repository's own `duplicate-keys` test) states
that duplicate endpoint keys in one Reporting-Endpoints header value
overwrite silently with no error.  The code violates this on the claimed
space-separated input: the space check fires, records the missing-comma
error, skips both pairs, and returns an empty mapping (first two
conjuncts, the second at the claim's literal `e1="url1" e1="url2"`); the
last-write-wins overwrite does occur for comma-separated duplicates (third
conjunct). -/
theorem spec_C8 :
    ParseReportingEndpoint
        "endpoint-1=\"https://example.com/reports1\" endpoint-1=\"https://example.com/reports2\"" =
      some ([],
        [errREspace
          "endpoint-1=\"https://example.com/reports1\" endpoint-1=\"https://example.com/reports2\""]) ∧
    ParseReportingEndpoint "e1=\"url1\" e1=\"url2\"" =
      some ([], [errREspace "e1=\"url1\" e1=\"url2\""]) ∧
    ParseReportingEndpoint
        "e1=\"https://example.com/r1\",e1=\"https://example.com/r2\"" =
      some ([("e1", "https://example.com/r2")], []) := by
  refine ⟨by decide, by decide, by decide⟩

/-- C9: duplicate occurrences of the same directive are preserved as
separate entries in appearance order: `style-src 'self'; style-src
fonts.example.com` yields two `SourceListItem` entries in the policy's
style-src sequence (and a nil error). -/
theorem spec_C9 :
    Parse "u" "e" ["style-src 'self'; style-src fonts.example.com"] =
      some ([{ StyleSource :=
        [⟨[{ KeywordSource := "'self'" }]⟩,
         ⟨[{ HostSource := "fonts.example.com" }]⟩] }], none) := by
  decide

/-- C10: every `SourceExpr` appended by `handleSourceExpr` has exactly one
of its six variant fields populated, and the populated field is the
original input token, unmodified. -/
theorem spec_C10 :
    ∀ (values : List String) (key : String) (e : SourceExpr),
      e ∈ (handleSourceExpr values key).1 →
      variantCount e = 1 ∧ ∃ v ∈ values, tokenMatches v e := by
  intro values key e he
  rw [handleSourceExpr_eq] at he
  simp only [List.mem_filterMap] at he
  obtain ⟨v, hv, hc⟩ := he
  exact ⟨classifySourceExpr_variantCount v e hc,
    ⟨v, hv, classifySourceExpr_shape v e hc⟩⟩

/-- C10 witness: the nonce expression produced from `'nonce-rAnd0m'`. -/
theorem spec_C10_witness :
    variantCount { NonceSource := "'nonce-rAnd0m'" } = 1 ∧
    ∃ v ∈ ["'nonce-rAnd0m'"],
      tokenMatches v { NonceSource := "'nonce-rAnd0m'" } :=
  spec_C10 ["'nonce-rAnd0m'"] "script-src" { NonceSource := "'nonce-rAnd0m'" }
    (by decide)

end CSP






